import Mathlib

/-!
phosphor-power: the power-sequencer fault reporter, the helpers of the regulators configuration
parser, sensor monitoring and the `System` class.

A shallow embedding of

* `phosphor-power-sequencer/src/power_sequencer_monitor.cpp`
  (`PowerSequencerMonitor::logError`, `PowerSequencerMonitor::onFailure`),
* `phosphor-regulators/src/config_file_parser.hpp` (the inline helpers of namespace `internal`),
* `phosphor-regulators/src/sensor_monitoring.cpp` (`SensorMonitoring::execute`),
* `phosphor-regulators/src/system.hpp` (`System`),

together with the properties of the specification that concern them.

C++ exceptions are modelled with `Except`: a function that can throw returns
`Except StdException α`, `.error e` being "the exception `e` leaves the function" and `.ok a`
"the function returns normally with `a`".  State touched by side effects (the journal, the
D-Bus connection, the map passed by reference) is passed explicitly.
-/

set_option autoImplicit false

namespace phosphor.power

/-! ## C++ library types used by the sources -/

/-- An exception object whose class derives from `std::exception`.  Everything thrown by the
    C++ standard library, by sdbusplus (`sdbusplus::exception::exception`), by nlohmann::json
    (`json::exception`) and by the actions of phosphor-regulators derives from `std::exception`,
    so this is the type of all exceptions in the model.  `invalid_argument` is
    `std::invalid_argument`; `exception` is any other class, with its `what()` text and the
    `what()` texts of the exceptions nested inside it (outermost first). -/
inductive StdException where
  | invalid_argument (what : String)
  | exception (what : String) (nested : List String)
  deriving DecidableEq, Repr

/-- The text returned by `e.what()`. -/
def StdException.what : StdException → String
  | .invalid_argument w => w
  | .exception w _ => w

/-- The C string seen through `s.c_str()` by a callee taking `const char*`: the characters of `s`
    before its first NUL character. -/
def c_str (s : String) : String :=
  String.mk (s.data.takeWhile (fun c => c != Char.ofNat 0))

/-- The conversion `std::to_string(int)`: the decimal representation, with a leading minus sign
    for a negative value. -/
def std_to_string (value : Int) : String :=
  toString value

/-- Strict lexicographic order on character sequences: the order `std::less<std::string>` gives
    the keys of a `std::map<std::string, ...>` (for UTF-8 text, byte order and code-point order
    agree). -/
def keyLess : List Char → List Char → Bool
  | [], [] => false
  | [], _ :: _ => true
  | _ :: _, [] => false
  | a :: as, b :: bs => if a.toNat < b.toNat then true else if b.toNat < a.toNat then false
      else keyLess as bs

/-- A `std::map<std::string, std::string>`, as the list of its entries in iteration (key)
    order. -/
abbrev StdMap := List (String × String)

/-- Lookup `m.find(key)`: the mapped value, or `none` for `m.end()`. -/
def StdMap.find : StdMap → String → Option String
  | [], _ => none
  | (k, v) :: rest, key => if k = key then some v else StdMap.find rest key

/-- Insertion `m.emplace(key, value)`: inserts the entry at its place in key order when no
    entry has the key, and leaves the map unchanged when one has. -/
def StdMap.emplace : StdMap → String → String → StdMap
  | [], key, value => [(key, value)]
  | (k, v) :: rest, key, value =>
    if k = key then (k, v) :: rest
    else if keyLess key.data k.data then (key, value) :: (k, v) :: rest
    else (k, v) :: StdMap.emplace rest key value

end phosphor.power

/-! ## phosphor-power-sequencer: `power_sequencer_monitor.cpp` -/

namespace phosphor.power.sequencer

open phosphor.power

/-- Modelled from the spec: the severity enumeration `enum{Critical,...}` of the logging
    collaborator (`sdbusplus::xyz::openbmc_project::Logging::server::Entry::Level`, declared
    outside this source tree); the members besides `Critical` are the remaining syslog
    severities of that interface. -/
inductive Level where
  | Emergency | Alert | Critical | Error | Warning | Notice | Informational | Debug
  deriving DecidableEq, Repr

/-- One structured error record, as handed to `method.append`: the error identifier, the
    severity and the key/value diagnostic bundle. -/
structure ErrorRecord where
  message : String
  level : Level
  additionalData : StdMap
  deriving DecidableEq, Repr

/-- An sdbusplus method-call message: where it is addressed and what has been appended to it. -/
structure MethodCall where
  service : String
  objpath : String
  interface : String
  method : String
  body : List ErrorRecord
  deriving DecidableEq, Repr

/-- The calls the monitor makes on the D-Bus collaborator, with their arguments. -/
inductive BusCall where
  | new_method_call (service objpath interface method : String)
  | append (msg : MethodCall) (record : ErrorRecord)
  | call_noreply (msg : MethodCall)
  deriving DecidableEq, Repr

/-- The D-Bus connection `sdbusplus::bus::bus& bus` (an external collaborator).  The collaborator
    decides, for each call it receives, whether the call raises and with which exception; a call
    that does not raise has the effect described by `Bus.new_method_call`, `Bus.append` and
    `Bus.call_noreply` below. -/
structure Bus where
  fault : BusCall → Option StdException

/-- What the process can observe outside itself: the lines written to the local journal with
    `log<level::ERR>` and the method calls delivered to the logging service. -/
structure World where
  journal : List String
  sent : List MethodCall
  deriving DecidableEq, Repr

/-- The error records delivered to the logging service. -/
def World.records (w : World) : List ErrorRecord :=
  w.sent.flatMap (fun m => m.body)

/-- Call `bus.new_method_call(service, objpath, interface, method)`. -/
def Bus.new_method_call (bus : Bus) (service objpath interface method : String) :
    Except StdException MethodCall :=
  match bus.fault (.new_method_call service objpath interface method) with
  | some e => .error e
  | none => .ok { service := service, objpath := objpath, interface := interface,
                  method := method, body := [] }

/-- Call `method.append(message, level, additionalData)`. -/
def Bus.append (bus : Bus) (msg : MethodCall) (message : String) (level : Level)
    (additionalData : StdMap) : Except StdException MethodCall :=
  let record : ErrorRecord :=
    { message := message, level := level, additionalData := additionalData }
  match bus.fault (.append msg record) with
  | some e => .error e
  | none => .ok { msg with body := msg.body ++ [record] }

/-- Call `bus.call_noreply(method)`. -/
def Bus.call_noreply (bus : Bus) (msg : MethodCall) (w : World) : Except StdException World :=
  match bus.fault (.call_noreply msg) with
  | some e => .error e
  | none => .ok { w with sent := w.sent ++ [msg] }

/-- Local logging `log<level::ERR>(text)` with `text` a `const char*`. -/
def log_ERR (text : String) (w : World) : World :=
  { w with journal := w.journal ++ [text] }

/-- The handler `catch (const std::exception& e)` of `logError`. -/
def logError.handler (message : String) (e : StdException) (additionalData : StdMap)
    (w : World) : Except StdException (StdMap × World) :=
  .ok (additionalData,
       log_ERR (c_str ("Unable to log error, message: " ++ message ++ ", error " ++ e.what)) w)

/-- The method `PowerSequencerMonitor::logError(message, additionalData)`.  `pid` is the value
    of `getpid()`; `additionalData` is passed by reference, so its final value is returned next
    to the world. -/
def logError (bus : Bus) (pid : Int) (message : String) (additionalData : StdMap) (w : World) :
    Except StdException (StdMap × World) :=
  -- try
  match bus.new_method_call "xyz.openbmc_project.Logging" "/xyz/openbmc_project/logging"
      "xyz.openbmc_project.Logging.Create" "Create" with
  | .error e => logError.handler message e additionalData w
  | .ok method =>
    -- Add PID to AdditionalData
    let additionalData := StdMap.emplace additionalData "_PID" (std_to_string pid)
    match bus.append method message Level.Critical additionalData with
    | .error e => logError.handler message e additionalData w
    | .ok method =>
      match bus.call_noreply method w with
      | .error e => logError.handler message e additionalData w
      | .ok w => .ok (additionalData, w)

/-- The method `PowerSequencerMonitor::onFailure(timeout, powerSupplyError)`. -/
def onFailure (bus : Bus) (pid : Int) (timeout : Bool) (powerSupplyError : String) (w : World) :
    Except StdException World :=
  let additionalData : StdMap := []
  if !powerSupplyError.isEmpty then
    -- Default to power supply error
    (logError bus pid powerSupplyError additionalData w).map Prod.snd
  else if timeout then
    -- Default to timeout error
    (logError bus pid "xyz.openbmc_project.Power.Error.PowerOnTimeout" additionalData w).map
      Prod.snd
  else
    -- Default to generic pgood error
    (logError bus pid "xyz.openbmc_project.Power.Error.Shutdown" additionalData w).map Prod.snd

/-- The three-way priority of the specification (section 4.5): the power-supply error identifier
    when one was determined upstream, else the timeout identifier when the failure was a timeout,
    else the generic shutdown identifier. -/
def specErrorIdentifier (timedOut : Bool) (powerSupplyErrorMessage : String) : String :=
  if powerSupplyErrorMessage ≠ "" then powerSupplyErrorMessage
  else if timedOut then "xyz.openbmc_project.Power.Error.PowerOnTimeout"
  else "xyz.openbmc_project.Power.Error.Shutdown"

/-- The empty `Create` method call that `bus.new_method_call` returns to `logError`. -/
def newCreateCall : MethodCall :=
  { service := "xyz.openbmc_project.Logging", objpath := "/xyz/openbmc_project/logging",
    interface := "xyz.openbmc_project.Logging.Create", method := "Create", body := [] }

/-- The `Create` method call on the logging service once `record` has been appended to it. -/
def createCall (record : ErrorRecord) : MethodCall :=
  { service := "xyz.openbmc_project.Logging", objpath := "/xyz/openbmc_project/logging",
    interface := "xyz.openbmc_project.Logging.Create", method := "Create", body := [record] }

/-- Whether the collaborator lets all three calls that `logError` makes for `record` return
    normally. -/
def Bus.delivers (bus : Bus) (record : ErrorRecord) : Bool :=
  (bus.fault (.new_method_call "xyz.openbmc_project.Logging" "/xyz/openbmc_project/logging"
      "xyz.openbmc_project.Logging.Create" "Create")).isNone
  && (bus.fault (.append newCreateCall record)).isNone
  && (bus.fault (.call_noreply (createCall record))).isNone

/-- A collaborator none of whose calls raises. -/
def workingBus : Bus :=
  { fault := fun _ => none }

/-- A collaborator that raises the same exception on every call. -/
def failingBus (e : StdException) : Bus :=
  { fault := fun _ => some e }

end phosphor.power.sequencer

/-! ## phosphor-regulators: `config_file_parser.hpp`, namespace `internal` -/

namespace phosphor.power.regulators

open phosphor.power

/-- A `nlohmann::json` element, with the value kinds a JSON text can hold.  An integer literal
    is held as `number_unsigned` (a `uint64_t`) when it has no sign and as `number_integer`
    (an `int64_t`) otherwise; `number_float` holds a `double`.  The properties of an object
    are held in a `std::map`, modelled as the list of its entries: the keys of a list that
    stands for an object are pairwise distinct. -/
inductive Json where
  | null
  | boolean (b : Bool)
  | number_integer (v : Int)
  | number_unsigned (v : Nat)
  | number_float (v : Float)
  | string (s : String)
  | array (elems : List Json)
  | object (props : List (String × Json))

namespace Json

/-- The test `element.is_boolean()`. -/
def is_boolean : Json → Bool
  | .boolean _ => true
  | _ => false

/-- The test `element.is_number_integer()`: true for signed and unsigned integers. -/
def is_number_integer : Json → Bool
  | .number_integer _ => true
  | .number_unsigned _ => true
  | _ => false

/-- The test `element.is_number_float()`. -/
def is_number_float : Json → Bool
  | .number_float _ => true
  | _ => false

/-- The test `element.is_number()`: an integer or a floating-point number. -/
def is_number (element : Json) : Bool :=
  element.is_number_integer || element.is_number_float

/-- The test `element.is_string()`. -/
def is_string : Json → Bool
  | .string _ => true
  | _ => false

/-- The test `element.is_array()`. -/
def is_array : Json → Bool
  | .array _ => true
  | _ => false

/-- The test `element.is_object()`. -/
def is_object : Json → Bool
  | .object _ => true
  | _ => false

/-- The count `element.size()`: 0 for null, the number of elements of an array, the number of
    properties of an object, and 1 for every other value. -/
def size : Json → Nat
  | .null => 0
  | .array elems => elems.length
  | .object props => props.length
  | _ => 1

/-- Lookup in the property list of an object. -/
def findProperty : List (String × Json) → String → Option Json
  | [], _ => none
  | (k, v) :: rest, key => if k = key then some v else findProperty rest key

/-- The lookup `element.find(key)`: the value stored under `key` in an object, `none` (for
    `element.end()`) when the object has no such property or the element is not an object. -/
def find : Json → String → Option Json
  | .object props, key => findProperty props key
  | _, _ => none

/-- The narrowing conversion `static_cast<int>(v)` of a 64-bit integer to the 32-bit `int`:
    the value modulo 2^32 in the range [-2^31, 2^31). -/
def static_cast_int (v : Int) : Int :=
  (v + 2147483648) % 4294967296 - 2147483648

/-- The conversion `static_cast<int>(v)` of a `double`: truncation toward zero (then taken to
    `int` as above). -/
def static_cast_int_of_double (v : Float) : Int :=
  if v < 0 then static_cast_int (- Int.ofNat (Float.toUInt64 (Float.neg v)).toNat)
  else static_cast_int (Int.ofNat (Float.toUInt64 v).toNat)

/-- The conversion `element.get<int>()`: the stored number cast to `int` with `static_cast`;
    a `json::type_error` for an element that is not a number. -/
def get_int : Json → Except StdException Int
  | .number_integer v => .ok (static_cast_int v)
  | .number_unsigned v => .ok (static_cast_int (Int.ofNat v))
  | .number_float v => .ok (static_cast_int_of_double v)
  | _ => .error (.exception "[json.exception.type_error.302] type must be number" [])

/-- The conversion `element.get<bool>()`. -/
def get_bool : Json → Except StdException Bool
  | .boolean b => .ok b
  | _ => .error (.exception "[json.exception.type_error.302] type must be boolean" [])

/-- The conversion `element.get<double>()`. -/
def get_double : Json → Except StdException Float
  | .number_integer v => .ok (Float.ofInt v)
  | .number_unsigned v => .ok (Float.ofNat v)
  | .number_float v => .ok v
  | _ => .error (.exception "[json.exception.type_error.302] type must be number" [])

/-- The conversion `element.get<std::string>()`. -/
def get_string : Json → Except StdException String
  | .string s => .ok s
  | _ => .error (.exception "[json.exception.type_error.302] type must be string" [])

end Json

/-- The constant `INT8_MIN`. -/
def INT8_MIN : Int := -128

/-- The constant `INT8_MAX`. -/
def INT8_MAX : Int := 127

/-- The narrowing conversion `static_cast<int8_t>(value)`. -/
def static_cast_int8 (value : Int) : Int :=
  (value + 128) % 256 - 128

/-- The function `getRequiredProperty(element, property)`. -/
def getRequiredProperty (element : Json) (property : String) : Except StdException Json :=
  match element.find property with
  | none => .error (.invalid_argument ("Required property missing: " ++ property))
  | some value => .ok value

/-- The function `parseBoolean(element)`. -/
def parseBoolean (element : Json) : Except StdException Bool :=
  -- Verify element contains a boolean
  if !element.is_boolean then
    .error (.invalid_argument "Element is not a boolean")
  else
    element.get_bool

/-- The function `parseDouble(element)`. -/
def parseDouble (element : Json) : Except StdException Float :=
  -- Verify element contains a number (integer or floating point)
  if !element.is_number then
    .error (.invalid_argument "Element is not a number")
  else
    element.get_double

/-- The function `parseInt8(element)`; the result is the value of the returned `int8_t`. -/
def parseInt8 (element : Json) : Except StdException Int :=
  -- Verify element contains an integer
  if !element.is_number_integer then
    .error (.invalid_argument "Element is not an integer")
  else
    match element.get_int with
    | .error e => .error e
    | .ok value =>
      if value < INT8_MIN || value > INT8_MAX then
        .error (.invalid_argument "Element is not an 8-bit signed integer")
      else
        .ok (static_cast_int8 value)

/-- The function `parseString(element, isEmptyValid)`; the C++ default of `isEmptyValid` is
    `false`. -/
def parseString (element : Json) (isEmptyValid : Bool) : Except StdException String :=
  if !element.is_string then
    .error (.invalid_argument "Element is not a string")
  else
    match element.get_string with
    | .error e => .error e
    | .ok value =>
      if value.isEmpty && !isEmptyValid then
        .error (.invalid_argument "Element contains an empty string")
      else
        .ok value

/-- The function `verifyIsArray(element)`. -/
def verifyIsArray (element : Json) : Except StdException Unit :=
  if !element.is_array then
    .error (.invalid_argument "Element is not an array")
  else
    .ok ()

/-- The function `verifyIsObject(element)`. -/
def verifyIsObject (element : Json) : Except StdException Unit :=
  if !element.is_object then
    .error (.invalid_argument "Element is not an object")
  else
    .ok ()

/-- The function `verifyPropertyCount(element, expectedCount)`; `expectedCount` is the value of
    the `unsigned int` argument. -/
def verifyPropertyCount (element : Json) (expectedCount : Nat) : Except StdException Unit :=
  if element.size ≠ expectedCount then
    .error (.invalid_argument "Element contains an invalid property")
  else
    .ok ()

/-- The number of property names of the expected set `known` that `element` has: the count a
    parse function reaches by adding one for each known property it finds. -/
def knownPropertyCount (element : Json) (known : Finset String) : Nat :=
  (known.filter (fun name => (element.find name).isSome)).card

end phosphor.power.regulators

/-! ## phosphor-regulators: `system.hpp`, `sensor_monitoring.cpp` -/

namespace phosphor.power.regulators

open phosphor.power

/-- Modelled from the spec: `Rule` (rule.hpp is not part of this source tree), "a named, ordered
    sequence of Actions; referenced by ID".  `Action` is the type of the actions, whose effect
    is given by an `ActionSemantics`. -/
structure Rule (Action : Type) where
  id : String
  actions : List Action

/-- Modelled from the spec: `Rail` (rail.hpp is not part of this source tree), "a single voltage
    rail produced/monitored on a Device; has a unique string ID, and an associated ordered list
    of monitoring Actions". -/
structure Rail (Action : Type) where
  id : String
  actions : List Action

/-- Modelled from the spec: `Device` (device.hpp is not part of this source tree), which "owns
    zero or more Rails; has a stable string ID used for environment scoping". -/
structure Device (Action : Type) where
  id : String
  rails : List (Rail Action)

/-- Modelled from the spec: `Chassis` (chassis.hpp is not part of this source tree), which
    "owns zero or more Devices" and is "identified by a numeric or string identifier". -/
structure Chassis (Action : Type) where
  number : Nat
  devices : List (Device Action)

/-- Modelled from the spec: the ID Registry `IDMap` (id_map.hpp is not part of this source
    tree), "a flat mapping from string identifiers to the hardware-model objects (devices,
    rails, rules) that own them elsewhere".  A default-constructed `IDMap` has no entry. -/
structure IDMap (Action : Type) where
  ruleMap : List (String × Rule Action)
  deviceMap : List (String × Device Action)
  railMap : List (String × Rail Action)

/-- The default-constructed registry `IDMap{}`. -/
def IDMap.empty {Action : Type} : IDMap Action :=
  { ruleMap := [], deviceMap := [], railMap := [] }

/-- The accessor `Rail::getID()`. -/
def Rail.getID {Action : Type} (rail : Rail Action) : String :=
  rail.id

/-- The accessor `Device::getID()`. -/
def Device.getID {Action : Type} (device : Device Action) : String :=
  device.id

/-- The class `System` of system.hpp: its three data members. -/
structure System (Action : Type) where
  rules : List (Rule Action)
  chassis : List (Chassis Action)
  idMap : IDMap Action

/-- The constructor `System::System(rules, chassis)`: the two vectors are moved into the
    members; `idMap` keeps its default member initializer `IDMap idMap{}` (the constructor
    body is empty). -/
def System.ctor {Action : Type} (rules : List (Rule Action))
    (chassis : List (Chassis Action)) : System Action :=
  { rules := rules, chassis := chassis, idMap := IDMap.empty }

/-- The accessor `System::getChassis()`. -/
def System.getChassis {Action : Type} (system : System Action) : List (Chassis Action) :=
  system.chassis

/-- The accessor `System::getIDMap()`. -/
def System.getIDMap {Action : Type} (system : System Action) : IDMap Action :=
  system.idMap

/-- The accessor `System::getRules()`. -/
def System.getRules {Action : Type} (system : System Action) : List (Rule Action) :=
  system.rules

/-- Modelled from the spec: the Execution Environment `ActionEnvironment`
    (action_environment.hpp is not part of this source tree), which holds "a reference to the
    ID Registry, the currently-scoped Device ID, and a scratch mapping of computed intermediate
    values". -/
structure ActionEnvironment (Action : Type) where
  idMap : IDMap Action
  deviceID : String
  computed : List (String × Int)

/-- The construction `ActionEnvironment environment{idMap, deviceID}`: nothing has been
    computed yet. -/
def ActionEnvironment.ctor {Action : Type} (idMap : IDMap Action)
    (deviceID : String) : ActionEnvironment Action :=
  { idMap := idMap, deviceID := deviceID, computed := [] }

/-- Modelled from the spec: the operation `execute(environment)` of the abstract class `Action`
    (action.hpp is not part of this source tree).  `H` is the state of the hardware behind the
    device-access collaborator.  An action either returns normally, with the environment and
    the hardware as it leaves them, or fails with an exception ("any action may fail with a
    device-access error, a reference error or a validation error"), the hardware being in the
    state reached when the exception was thrown. -/
structure ActionSemantics (Action H : Type) where
  execute : Action → ActionEnvironment Action → H →
    Except (StdException × H) (ActionEnvironment Action × H)

/-- Modelled from the spec: `action_utils::execute(actions, environment)` (action_utils.hpp is
    not part of this source tree): "within one Rule, actions execute strictly in configured
    sequence", and "failure aborts the remainder of the current Rule's action list; the
    exception propagates to the invocation boundary". -/
def action_utils.execute {Action H : Type} (sem : ActionSemantics Action H) :
    List Action → ActionEnvironment Action → H →
      Except (StdException × H) (ActionEnvironment Action × H)
  | [], environment, hw => .ok (environment, hw)
  | action :: rest, environment, hw =>
    match sem.execute action environment hw with
    | .error e => .error e
    | .ok (environment, hw) => action_utils.execute sem rest environment hw

/-- What sensor monitoring can change outside itself: the journal and the hardware. -/
structure Services (H : Type) where
  journal : List String
  hardware : H

/-- Modelled from the spec: `journal::logErr(message)` (journal.hpp is not part of this source
    tree): one error line added to the journal. -/
def journal.logErr {H : Type} (message : String) (s : Services H) : Services H :=
  { s with journal := s.journal ++ [message] }

/-- The messages of an exception and of the exceptions nested inside it, innermost first. -/
def exception_utils.getMessages : StdException → List String
  | .invalid_argument what => [what]
  | .exception what nested => nested.reverse ++ [what]

/-- Modelled from the spec: `exception_utils::log(e)` (exception_utils.hpp is not part of this
    source tree): "the triggering error is logged with full context (exception chain)", one
    journal line for each exception of the chain. -/
def exception_utils.log {H : Type} (e : StdException) (s : Services H) : Services H :=
  { s with journal := s.journal ++ exception_utils.getMessages e }

/-- The class `SensorMonitoring`: the data member `actions` used by `execute`. -/
structure SensorMonitoring (Action : Type) where
  actions : List Action

/-- The method `SensorMonitoring::execute(system, chassis, device, rail)`. -/
def SensorMonitoring.execute {Action H : Type} (self : SensorMonitoring Action)
    (sem : ActionSemantics Action H) (system : System Action) (_chassis : Chassis Action)
    (device : Device Action) (rail : Rail Action) (s : Services H) :
    Except StdException (Services H) :=
  -- try
  -- Create ActionEnvironment
  let environment := ActionEnvironment.ctor system.getIDMap device.getID
  -- Execute the actions
  match action_utils.execute sem self.actions environment s.hardware with
  | .ok (_, hw) => .ok { s with hardware := hw }
  | .error (e, hw) =>
    -- catch (const std::exception& e): log error messages in journal
    .ok (journal.logErr ("Unable to monitor sensors for rail " ++ rail.getID)
          (exception_utils.log e { s with hardware := hw }))

end phosphor.power.regulators

/-! ## Further definitions: map invariant, registry lookups, observation of the actions -/

namespace phosphor.power

/-- The invariant of a `std::map<std::string, std::string>`: its entries are in strictly
    increasing key order (so no two entries have the same key). -/
def StdMap.WellFormed (m : StdMap) : Prop :=
  List.Pairwise (fun a b => keyLess a.1.data b.1.data = true) m

end phosphor.power

namespace phosphor.power.regulators

open phosphor.power

/-- Modelled from the spec: the `NotFoundError` with which a lookup in the ID Registry fails
    (id_map.hpp is not part of this source tree), "naming the missing ID and its expected
    kind". -/
structure NotFoundError where
  id : String
  kind : String
  deriving DecidableEq, Repr

/-- The entry registered under `id` in one of the maps of the registry, if any. -/
def IDMap.findEntry {α : Type} : List (String × α) → String → Option α
  | [], _ => none
  | (k, v) :: rest, id => if k = id then some v else IDMap.findEntry rest id

/-- Modelled from the spec: the lookup "find Rule by ID" of the ID Registry (id_map.hpp is not
    part of this source tree), which returns the registered object and "fails with a
    NotFoundError (naming the missing ID and its expected kind) if absent". -/
def IDMap.getRule {Action : Type} (idMap : IDMap Action) (id : String) :
    Except NotFoundError (Rule Action) :=
  match IDMap.findEntry idMap.ruleMap id with
  | some rule => .ok rule
  | none => .error { id := id, kind := "rule" }

/-- Modelled from the spec: the lookup "find Device by ID" of the ID Registry (id_map.hpp is
    not part of this source tree). -/
def IDMap.getDevice {Action : Type} (idMap : IDMap Action) (id : String) :
    Except NotFoundError (Device Action) :=
  match IDMap.findEntry idMap.deviceMap id with
  | some device => .ok device
  | none => .error { id := id, kind := "device" }

/-- Modelled from the spec: the lookup "find Rail by ID" of the ID Registry (id_map.hpp is not
    part of this source tree). -/
def IDMap.getRail {Action : Type} (idMap : IDMap Action) (id : String) :
    Except NotFoundError (Rail Action) :=
  match IDMap.findEntry idMap.railMap id with
  | some rail => .ok rail
  | none => .error { id := id, kind := "rail" }

/-- The number of entries of the registry that are registered under `id`. -/
def IDMap.registrationCount {Action : Type} (idMap : IDMap Action) (id : String) : Nat :=
  (idMap.ruleMap.filter (fun entry => entry.1 = id)).length
  + (idMap.deviceMap.filter (fun entry => entry.1 = id)).length
  + (idMap.railMap.filter (fun entry => entry.1 = id)).length

/-- The devices reachable from a list of chassis. -/
def reachableDevices {Action : Type} (chassis : List (Chassis Action)) : List (Device Action) :=
  chassis.flatMap (fun c => c.devices)

/-- The rails reachable from a list of chassis. -/
def reachableRails {Action : Type} (chassis : List (Chassis Action)) : List (Rail Action) :=
  (reachableDevices chassis).flatMap (fun d => d.rails)

/-- The behaviour `sem` of the actions, observed: next to the hardware, the list of the
    environments with which `execute` was called on an action, in call order. -/
def ActionSemantics.recording {Action H : Type} (sem : ActionSemantics Action H) :
    ActionSemantics Action (H × List (ActionEnvironment Action)) :=
  { execute := fun action environment hw =>
      match sem.execute action environment hw.1 with
      | .error (e, h) => .error (e, (h, hw.2 ++ [environment]))
      | .ok (environment', h) => .ok (environment', (h, hw.2 ++ [environment])) }

/-- The number of actions of the list that `action_utils::execute` runs to completion. -/
def action_utils.executedCount {Action H : Type} (sem : ActionSemantics Action H) :
    List Action → ActionEnvironment Action → H → Nat
  | [], _, _ => 0
  | action :: rest, environment, hw =>
    match sem.execute action environment hw with
    | .error _ => 0
    | .ok (environment, hw) => action_utils.executedCount sem rest environment hw + 1

/-- The environments recorded after a run observed with `ActionSemantics.recording`. -/
def recordedEnvironments {Action H : Type}
    (result : Except (StdException × (H × List (ActionEnvironment Action)))
      (ActionEnvironment Action × (H × List (ActionEnvironment Action)))) :
    List (ActionEnvironment Action) :=
  match result with
  | .error (_, hw) => hw.2
  | .ok (_, hw) => hw.2

/-- Actions for examples: `true` is an action that increments a counter in the hardware and
    returns, `false` one that fails with a device-access error. -/
def exampleSemantics : ActionSemantics Bool Nat :=
  { execute := fun action environment hw =>
      if action then .ok (environment, hw + 1)
      else .error (.exception "I2C read failed" ["PMBus error"], hw) }

end phosphor.power.regulators

/-! ## Properties of the power-sequencer fault reporter -/

namespace phosphor.power.sequencer

open phosphor.power

/-- The decimal digits of a natural number are what `std_to_string` yields for it. -/
theorem std_to_string_ofNat (n : Nat) :
    std_to_string (Int.ofNat n) = (Nat.toDigits 10 n).asString := rfl

theorem records_log_ERR (text : String) (w : World) :
    (log_ERR text w).records = w.records := rfl

theorem find_emplace_nil (key value : String) :
    StdMap.find (StdMap.emplace [] key value) key = some value := by
  simp [StdMap.emplace, StdMap.find]

/-- Whatever the collaborator does, `logError` returns normally, and the records delivered to
    the logging service grow by the one record of this call exactly when the collaborator lets
    the three calls through. -/
theorem logError_records (bus : Bus) (pid : Int) (message : String) (data : StdMap) (w : World) :
    ∃ r, logError bus pid message data w = .ok r ∧
      r.2.records = w.records ++
        (if bus.delivers ⟨message, .Critical, StdMap.emplace data "_PID" (std_to_string pid)⟩
         then [⟨message, .Critical, StdMap.emplace data "_PID" (std_to_string pid)⟩] else []) := by
  unfold logError Bus.new_method_call Bus.append Bus.call_noreply Bus.delivers
  cases h1 : bus.fault (.new_method_call "xyz.openbmc_project.Logging"
      "/xyz/openbmc_project/logging" "xyz.openbmc_project.Logging.Create" "Create") with
  | some e => simp [logError.handler, records_log_ERR]
  | none =>
    cases h2 : bus.fault (.append newCreateCall
        ⟨message, .Critical, StdMap.emplace data "_PID" (std_to_string pid)⟩) with
    | some e =>
      simp only [newCreateCall] at h2
      simp [h2, logError.handler]
      exact records_log_ERR _ _
    | none =>
      cases h3 : bus.fault (.call_noreply (createCall
          ⟨message, .Critical, StdMap.emplace data "_PID" (std_to_string pid)⟩)) with
      | some e =>
        simp only [newCreateCall, createCall] at h2 h3
        simp [h2, h3, logError.handler]
        exact records_log_ERR _ _
      | none =>
        simp only [newCreateCall, createCall] at h2 h3
        simp [h2, h3, World.records]

/-- The identifier that `onFailure` hands to `logError` is the one the specification's
    three-way priority gives; the map it hands over is empty. -/
theorem onFailure_eq_logError_spec (bus : Bus) (pid : Int) (timedOut : Bool)
    (msg : String) (w : World) :
    onFailure bus pid timedOut msg w =
      (logError bus pid (specErrorIdentifier timedOut msg) [] w).map Prod.snd := by
  unfold onFailure specErrorIdentifier
  by_cases hmsg : msg = ""
  · subst hmsg
    cases timedOut <;> rfl
  · have hne : msg.isEmpty = false := by
      cases hb : msg.isEmpty with
      | false => rfl
      | true => exact absurd ((String.isEmpty_iff _).mp hb) hmsg
    simp [hne, hmsg]

/-- C1: for every `timedOut` and `powerSupplyErrorMessage`, `onFailure` calls `logError` with the
    identifier given by the three-way priority: the power-supply error message itself when it is
    not empty, else the power-on timeout identifier when `timedOut` holds, else the shutdown
    identifier (and with an empty `additionalData` map). -/
theorem onFailure_error_identifier (bus : Bus) (pid : Int) (timedOut : Bool)
    (powerSupplyErrorMessage : String) (w : World) :
    onFailure bus pid timedOut powerSupplyErrorMessage w =
      (logError bus pid
        (if powerSupplyErrorMessage ≠ "" then powerSupplyErrorMessage
         else if timedOut = true then "xyz.openbmc_project.Power.Error.PowerOnTimeout"
         else "xyz.openbmc_project.Power.Error.Shutdown") [] w).map Prod.snd := by
  rw [onFailure_eq_logError_spec]
  rfl

/-- C2: when every call on the logging collaborator raises, `onFailure` returns normally: the
    exception raised by `bus.new_method_call` is caught in `logError`, one line naming the
    identifier and the exception text is written to the local journal, and nothing is
    delivered. -/
theorem onFailure_swallows_submission_failure (bus : Bus) (pid : Int) (timedOut : Bool)
    (powerSupplyErrorMessage : String) (w : World)
    (hraise : ∀ call : BusCall, (bus.fault call).isSome = true) :
    ∃ e : StdException,
      bus.fault (.new_method_call "xyz.openbmc_project.Logging" "/xyz/openbmc_project/logging"
        "xyz.openbmc_project.Logging.Create" "Create") = some e ∧
      onFailure bus pid timedOut powerSupplyErrorMessage w =
        .ok { journal := w.journal ++
                [c_str ("Unable to log error, message: "
                  ++ specErrorIdentifier timedOut powerSupplyErrorMessage
                  ++ ", error " ++ e.what)],
              sent := w.sent } := by
  obtain ⟨e, he⟩ := Option.isSome_iff_exists.mp (hraise (.new_method_call
    "xyz.openbmc_project.Logging" "/xyz/openbmc_project/logging"
    "xyz.openbmc_project.Logging.Create" "Create"))
  refine ⟨e, he, ?_⟩
  rw [onFailure_eq_logError_spec]
  simp [logError, Bus.new_method_call, he, logError.handler, log_ERR, Except.map]

/-- Witness for C2: a collaborator raising `sd_bus_call failed` on every call. -/
theorem onFailure_swallows_submission_failure_witness :
    (∀ call : BusCall,
        ((failingBus (.exception "sd_bus_call failed" [])).fault call).isSome = true) ∧
    ∃ e : StdException,
      (failingBus (.exception "sd_bus_call failed" [])).fault
        (.new_method_call "xyz.openbmc_project.Logging" "/xyz/openbmc_project/logging"
          "xyz.openbmc_project.Logging.Create" "Create") = some e ∧
      onFailure (failingBus (.exception "sd_bus_call failed" [])) 1234 true "custom.Error"
          { journal := [], sent := [] } =
        .ok { journal := [] ++
                [c_str ("Unable to log error, message: "
                  ++ specErrorIdentifier true "custom.Error" ++ ", error " ++ e.what)],
              sent := [] } :=
  ⟨fun _ => rfl,
   onFailure_swallows_submission_failure (failingBus (.exception "sd_bus_call failed" []))
     1234 true "custom.Error" { journal := [], sent := [] } (fun _ => rfl)⟩

/-- C3 (counterexample): with a collaborator that raises on every call, a power-on timeout
    reported through `onFailure` delivers no error record at all (zero, not one); the only trace
    is one line in the local journal. -/
theorem onFailure_no_record_when_collaborator_raises :
    (onFailure (failingBus (.exception "sd_bus_call failed" [])) 1234 true ""
        { journal := [], sent := [] }).map World.records = .ok [] ∧
    onFailure (failingBus (.exception "sd_bus_call failed" [])) 1234 true ""
        { journal := [], sent := [] } =
      .ok { journal := ["Unable to log error, message: " ++
                        "xyz.openbmc_project.Power.Error.PowerOnTimeout" ++
                        ", error sd_bus_call failed"],
            sent := [] } :=
  ⟨rfl, rfl⟩

/-- C3 (amended): one call of `onFailure` returns normally and delivers at most one error record,
    of severity Critical, with the identifier of the three-way priority: exactly that one record
    when the collaborator lets `new_method_call`, `append` and `call_noreply` return, and no
    record when one of them raises. -/
theorem onFailure_delivers_at_most_one_critical_record (bus : Bus) (pid : Int) (timedOut : Bool)
    (powerSupplyErrorMessage : String) (w : World) :
    ∃ w' : World, onFailure bus pid timedOut powerSupplyErrorMessage w = .ok w' ∧
      w'.records = w.records ++
        (if bus.delivers { message := specErrorIdentifier timedOut powerSupplyErrorMessage,
                           level := Level.Critical,
                           additionalData := [("_PID", std_to_string pid)] }
         then [{ message := specErrorIdentifier timedOut powerSupplyErrorMessage,
                 level := Level.Critical,
                 additionalData := [("_PID", std_to_string pid)] }]
         else []) := by
  obtain ⟨r, hr, hrec⟩ := logError_records bus pid
    (specErrorIdentifier timedOut powerSupplyErrorMessage) [] w
  refine ⟨r.2, ?_, ?_⟩
  · rw [onFailure_eq_logError_spec, hr]; rfl
  · simpa [StdMap.emplace] using hrec

/-- C4: every error record that a call of `onFailure` delivers has, in its diagnostic bundle, an
    entry with key `_PID` whose value is the decimal string of the process id; with a
    collaborator that does not raise, the delivered record is the one carrying exactly that
    entry. -/
theorem onFailure_record_has_pid (bus : Bus) (pid : Int) (timedOut : Bool)
    (powerSupplyErrorMessage : String) (w : World) :
    (∃ (w' : World) (delivered : List ErrorRecord),
      onFailure bus pid timedOut powerSupplyErrorMessage w = .ok w' ∧
      w'.records = w.records ++ delivered ∧
      ∀ record ∈ delivered,
        StdMap.find record.additionalData "_PID" = some (std_to_string pid)) ∧
    (onFailure workingBus pid timedOut powerSupplyErrorMessage w).map World.records =
      .ok (w.records ++
        [{ message := specErrorIdentifier timedOut powerSupplyErrorMessage,
           level := Level.Critical,
           additionalData := [("_PID", std_to_string pid)] }]) := by
  constructor
  · obtain ⟨r, hr, hrec⟩ := logError_records bus pid
      (specErrorIdentifier timedOut powerSupplyErrorMessage) [] w
    refine ⟨r.2, _, ?_, hrec, ?_⟩
    · rw [onFailure_eq_logError_spec, hr]; rfl
    · intro record hmem
      split at hmem
      · simp only [List.mem_singleton] at hmem
        subst hmem
        exact find_emplace_nil _ _
      · simp at hmem
  · obtain ⟨r, hr, hrec⟩ := logError_records workingBus pid
      (specErrorIdentifier timedOut powerSupplyErrorMessage) [] w
    rw [onFailure_eq_logError_spec, hr]
    simp only [Except.map]
    rw [hrec]
    simp [Bus.delivers, workingBus, StdMap.emplace]

end phosphor.power.sequencer

/-! ## Properties of the configuration parser helpers -/

namespace phosphor.power.regulators

open phosphor.power

/-- Narrowing to `int` leaves a value of the `int` range unchanged. -/
theorem static_cast_int_of_fits (v : Int) (hlo : -2147483648 ≤ v) (hhi : v ≤ 2147483647) :
    Json.static_cast_int v = v := by
  unfold Json.static_cast_int
  omega

/-- A signed integer element in the 8-bit range is parsed to its value. -/
theorem parseInt8_in_range (v : Int) (hlo : -128 ≤ v) (hhi : v ≤ 127) :
    parseInt8 (.number_integer v) = .ok v := by
  have hcast : Json.static_cast_int v = v := static_cast_int_of_fits v (by omega) (by omega)
  have h8 : static_cast_int8 v = v := by unfold static_cast_int8; omega
  simp [parseInt8, Json.is_number_integer, Json.get_int, hcast, INT8_MIN, INT8_MAX, h8]
  omega

/-- A signed integer element that fits the C++ `int` and lies outside the 8-bit range is
    rejected with the range error. -/
theorem parseInt8_out_of_range_int (v : Int) (hlo : -2147483648 ≤ v) (hhi : v ≤ 2147483647)
    (hout : v < -128 ∨ 127 < v) :
    parseInt8 (.number_integer v) =
      .error (.invalid_argument "Element is not an 8-bit signed integer") := by
  have hcast : Json.static_cast_int v = v := static_cast_int_of_fits v hlo hhi
  simp [parseInt8, Json.is_number_integer, Json.get_int, hcast, INT8_MIN, INT8_MAX]
  omega

/-- C5 (failing input): the JSON integer 4294967296 = 2^32 is outside [-128, 127], yet
    `parseInt8` returns normally with the value 0: `int value = element` narrows the stored
    64-bit number to the 32-bit `int` before the range check. -/
theorem parseInt8_accepts_4294967296 :
    parseInt8 (.number_unsigned 4294967296) = .ok 0 := by
  rfl

theorem findProperty_isSome_iff (props : List (String × Json)) (name : String) :
    (Json.findProperty props name).isSome = true ↔ name ∈ props.map Prod.fst := by
  induction props with
  | nil => simp [Json.findProperty]
  | cons p rest ih =>
    obtain ⟨k, v⟩ := p
    by_cases hk : k = name
    · simp [Json.findProperty, hk]
    · have hk' : ¬ name = k := fun h => hk h.symm
      simp [Json.findProperty, hk, hk', ih]

theorem findProperty_eq_some_iff (props : List (String × Json)) (name : String) (value : Json)
    (hkeys : (props.map Prod.fst).Nodup) :
    Json.findProperty props name = some value ↔ (name, value) ∈ props := by
  induction props with
  | nil => simp [Json.findProperty]
  | cons p rest ih =>
    obtain ⟨k, v⟩ := p
    simp only [List.map_cons, List.nodup_cons] at hkeys
    by_cases hk : k = name
    · subst hk
      have hnot : ∀ value', (k, value') ∉ rest := fun value' hmem =>
        hkeys.1 (List.mem_map.mpr ⟨(k, value'), hmem, rfl⟩)
      simp only [Json.findProperty, if_true, Option.some.injEq, List.mem_cons, Prod.mk.injEq,
        true_and]
      constructor
      · intro h; exact Or.inl h.symm
      · rintro (h | h)
        · exact h.symm
        · exact absurd h (hnot value)
    · have hk' : ¬ name = k := fun h => hk h.symm
      simp [Json.findProperty, hk, hk', ih hkeys.2]

theorem findProperty_eq_none_iff (props : List (String × Json)) (name : String) :
    Json.findProperty props name = none ↔ ∀ value, (name, value) ∉ props := by
  induction props with
  | nil => simp [Json.findProperty]
  | cons p rest ih =>
    obtain ⟨k, v⟩ := p
    by_cases hk : k = name
    · subst hk
      simp only [Json.findProperty, if_true, reduceCtorEq, false_iff, not_forall, not_not]
      exact ⟨v, List.mem_cons_self _ _⟩
    · have hk' : ¬ name = k := fun h => hk h.symm
      simp [Json.findProperty, hk, hk', ih]

/-- The number of known properties an object has is the number of its keys that are known. -/
theorem knownPropertyCount_object (props : List (String × Json)) (known : Finset String) :
    knownPropertyCount (.object props) known =
      (known ∩ (props.map Prod.fst).toFinset).card := by
  unfold knownPropertyCount
  congr 1
  ext name
  simp only [Finset.mem_filter, Finset.mem_inter, List.mem_toFinset, Json.find]
  rw [findProperty_isSome_iff]

/-- C6: for a JSON object (its keys pairwise distinct) and a set `known` of expected property
    names, when `expectedCount` is the number of names of `known` that the object has,
    `verifyPropertyCount` fails with "Element contains an invalid property" if the object has a
    property whose name is not in `known`, and returns normally if all its property names are
    in `known`. -/
theorem verifyPropertyCount_rejects_unknown_property (props : List (String × Json))
    (known : Finset String) (expectedCount : Nat)
    (hkeys : (props.map Prod.fst).Nodup)
    (hcount : expectedCount = knownPropertyCount (.object props) known) :
    ((∃ p ∈ props, p.1 ∉ known) →
      verifyPropertyCount (.object props) expectedCount =
        .error (.invalid_argument "Element contains an invalid property")) ∧
    ((∀ p ∈ props, p.1 ∈ known) →
      verifyPropertyCount (.object props) expectedCount = .ok ()) := by
  have hlen : (props.map Prod.fst).toFinset.card = props.length := by
    rw [List.toFinset_card_of_nodup hkeys, List.length_map]
  rw [knownPropertyCount_object] at hcount
  constructor
  · rintro ⟨p, hp, hnot⟩
    have hmem : p.1 ∈ (props.map Prod.fst).toFinset :=
      List.mem_toFinset.mpr (List.mem_map.mpr ⟨p, hp, rfl⟩)
    have hss : known ∩ (props.map Prod.fst).toFinset ⊂ (props.map Prod.fst).toFinset := by
      refine Finset.ssubset_iff_subset_ne.mpr ⟨Finset.inter_subset_right, ?_⟩
      intro heq
      rw [← heq] at hmem
      exact hnot (Finset.mem_inter.mp hmem).1
    have hlt := Finset.card_lt_card hss
    have hne : props.length ≠ expectedCount := by omega
    simp [verifyPropertyCount, Json.size, hne]
  · intro hall
    have hsub : (props.map Prod.fst).toFinset ⊆ known := by
      intro name hname
      obtain ⟨p, hp, rfl⟩ := List.mem_map.mp (List.mem_toFinset.mp hname)
      exact hall p hp
    have heq : known ∩ (props.map Prod.fst).toFinset = (props.map Prod.fst).toFinset :=
      Finset.inter_eq_right.mpr hsub
    have hsize : props.length = expectedCount := by rw [hcount, heq, hlen]
    simp [verifyPropertyCount, Json.size, hsize]

/-- Witness for C6: a rule object with the known property `id`, with and without the unknown
    property `bogus`, checked against the expected names `id`, `actions` and `comments`. -/
theorem verifyPropertyCount_rejects_unknown_property_witness :
    verifyPropertyCount
        (.object [("bogus", .boolean true), ("id", .string "set_voltage_rule")]) 1 =
      .error (.invalid_argument "Element contains an invalid property") ∧
    verifyPropertyCount (.object [("id", .string "set_voltage_rule")]) 1 = .ok () :=
  ⟨(verifyPropertyCount_rejects_unknown_property
      [("bogus", .boolean true), ("id", .string "set_voltage_rule")]
      {"id", "actions", "comments"} 1 (by decide) (by decide)).1
      ⟨("bogus", .boolean true), by simp, by decide⟩,
   (verifyPropertyCount_rejects_unknown_property
      [("id", .string "set_voltage_rule")]
      {"id", "actions", "comments"} 1 (by decide) (by decide)).2
      (by simp)⟩

/-- C7: for a JSON object (its keys pairwise distinct) and a property name `property`,
    `getRequiredProperty` returns the value stored under `property` when the object has such a
    property, and fails with "Required property missing: " followed by the name exactly when it
    has none. -/
theorem getRequiredProperty_spec (props : List (String × Json)) (property : String)
    (hkeys : (props.map Prod.fst).Nodup) :
    (∀ value, (property, value) ∈ props →
      getRequiredProperty (.object props) property = .ok value) ∧
    (getRequiredProperty (.object props) property =
        .error (.invalid_argument ("Required property missing: " ++ property)) ↔
      ∀ value, (property, value) ∉ props) := by
  constructor
  · intro value hmem
    have hfind := (findProperty_eq_some_iff props property value hkeys).mpr hmem
    simp [getRequiredProperty, Json.find, hfind]
  · cases hfind : Json.findProperty props property with
    | none =>
      have hnone := (findProperty_eq_none_iff props property).mp hfind
      simp [getRequiredProperty, Json.find, hfind, hnone]
    | some value =>
      have hmem := (findProperty_eq_some_iff props property value hkeys).mp hfind
      simp only [getRequiredProperty, Json.find, hfind, reduceCtorEq, false_iff, not_forall,
        not_not]
      exact ⟨value, hmem⟩

/-- Witness for C7: a rule object with the properties `actions` and `id`. -/
theorem getRequiredProperty_spec_witness :
    getRequiredProperty (.object [("actions", .array []), ("id", .string "set_voltage_rule")])
        "id" = .ok (.string "set_voltage_rule") ∧
    getRequiredProperty (.object [("actions", .array []), ("id", .string "set_voltage_rule")])
        "comments" = .error (.invalid_argument "Required property missing: comments") :=
  ⟨(getRequiredProperty_spec [("actions", .array []), ("id", .string "set_voltage_rule")]
      "id" (by decide)).1 (.string "set_voltage_rule") (by simp),
   (getRequiredProperty_spec [("actions", .array []), ("id", .string "set_voltage_rule")]
      "comments" (by decide)).2.mpr (by simp)⟩

/-- C8: for a JSON string element `s`, `parseString` with `isEmptyValid = false` (the default)
    fails with "Element contains an empty string" exactly when `s` is empty and returns `s`
    otherwise; with `isEmptyValid = true` it returns `s` for every string, the empty one
    included. -/
theorem parseString_empty_string (s : String) :
    parseString (.string s) false =
      (if s = "" then .error (.invalid_argument "Element contains an empty string")
       else .ok s) ∧
    parseString (.string s) true = .ok s := by
  constructor
  · by_cases hs : s = ""
    · subst hs; rfl
    · have hne : s.isEmpty = false := by
        cases hb : s.isEmpty with
        | false => rfl
        | true => exact absurd ((String.isEmpty_iff _).mp hb) hs
      simp [parseString, Json.is_string, Json.get_string, hne, hs]
  · simp [parseString, Json.is_string, Json.get_string]

/-- C9: each type-checking parser fails with the error naming the expected type exactly when
    the element is not of that JSON type, and accepts every element of the type:
    `parseBoolean` (which returns the boolean unchanged), `parseDouble` (a number is an integer,
    an unsigned integer or a floating-point number), `parseString` (for both values of
    `isEmptyValid`), `verifyIsArray` and `verifyIsObject`. -/
theorem type_check_errors (e : Json) :
    ((parseBoolean e = .error (.invalid_argument "Element is not a boolean") ↔
        ∀ b, e ≠ .boolean b) ∧
      ∀ b, parseBoolean (.boolean b) = .ok b) ∧
    ((parseDouble e = .error (.invalid_argument "Element is not a number") ↔
        (∀ v, e ≠ .number_integer v) ∧ (∀ v, e ≠ .number_unsigned v) ∧
          (∀ v, e ≠ .number_float v)) ∧
      (∀ v, parseDouble (.number_integer v) = .ok (Float.ofInt v)) ∧
      (∀ v, parseDouble (.number_unsigned v) = .ok (Float.ofNat v)) ∧
      (∀ v, parseDouble (.number_float v) = .ok v)) ∧
    ((∀ isEmptyValid,
        parseString e isEmptyValid = .error (.invalid_argument "Element is not a string") ↔
          ∀ s, e ≠ .string s) ∧
      ∀ s, parseString (.string s) true = .ok s) ∧
    ((verifyIsArray e = .error (.invalid_argument "Element is not an array") ↔
        ∀ elems, e ≠ .array elems) ∧
      ∀ elems, verifyIsArray (.array elems) = .ok ()) ∧
    ((verifyIsObject e = .error (.invalid_argument "Element is not an object") ↔
        ∀ props, e ≠ .object props) ∧
      ∀ props, verifyIsObject (.object props) = .ok ()) := by
  refine ⟨⟨?_, fun _ => rfl⟩, ⟨?_, fun _ => rfl, fun _ => rfl, fun _ => rfl⟩,
    ⟨?_, ?_⟩, ⟨?_, fun _ => rfl⟩, ⟨?_, fun _ => rfl⟩⟩
  · cases e <;> simp [parseBoolean, Json.is_boolean, Json.get_bool]
  · cases e <;>
      simp [parseDouble, Json.is_number, Json.is_number_integer, Json.is_number_float,
        Json.get_double]
  · intro isEmptyValid
    cases e with
    | string s =>
      simp only [parseString, Json.is_string, Json.get_string]
      cases s.isEmpty && !isEmptyValid <;> simp
    | _ => simp [parseString, Json.is_string]
  · intro s
    simp [parseString, Json.is_string, Json.get_string]
  · cases e <;> simp [verifyIsArray, Json.is_array]
  · cases e <;> simp [verifyIsObject, Json.is_object]

/-! ## Properties of sensor monitoring -/

/-- C10: for every system, chassis, device and rail, every action list and every behaviour of
    the actions, `SensorMonitoring::execute` returns normally: no exception reaches its
    caller, whether the actions succeed or one of them fails. -/
theorem SensorMonitoring_execute_returns_normally {Action H : Type}
    (self : SensorMonitoring Action) (sem : ActionSemantics Action H)
    (system : System Action) (chassis : Chassis Action) (device : Device Action)
    (rail : Rail Action) (s : Services H) :
    ∃ s' : Services H, self.execute sem system chassis device rail s = .ok s' := by
  unfold SensorMonitoring.execute
  dsimp only
  split
  · exact ⟨_, rfl⟩
  · exact ⟨_, rfl⟩

end phosphor.power.regulators

/-! ## Properties of `System` -/

namespace phosphor.power.regulators

open phosphor.power

/-- C11 (counterexample): in the System constructed from the rule `set_voltage_rule` and a
    chassis with the device `vdd_reg` and its rail `vdd`, looking up each of these three IDs in
    `getIDMap()` fails with a NotFoundError: nothing was registered. -/
theorem System_ctor_registers_nothing_example :
    IDMap.getRule
        (System.ctor [({ id := "set_voltage_rule", actions := [] } : Rule Unit)]
          [{ number := 1,
             devices := [{ id := "vdd_reg", rails := [{ id := "vdd", actions := [] }] }] }]
        ).getIDMap "set_voltage_rule" =
      .error { id := "set_voltage_rule", kind := "rule" } ∧
    IDMap.getDevice
        (System.ctor [({ id := "set_voltage_rule", actions := [] } : Rule Unit)]
          [{ number := 1,
             devices := [{ id := "vdd_reg", rails := [{ id := "vdd", actions := [] }] }] }]
        ).getIDMap "vdd_reg" =
      .error { id := "vdd_reg", kind := "device" } ∧
    IDMap.getRail
        (System.ctor [({ id := "set_voltage_rule", actions := [] } : Rule Unit)]
          [{ number := 1,
             devices := [{ id := "vdd_reg", rails := [{ id := "vdd", actions := [] }] }] }]
        ).getIDMap "vdd" =
      .error { id := "vdd", kind := "rail" } :=
  ⟨rfl, rfl, rfl⟩

/-- C11 (amended): after a System is constructed from a vector of rules and a vector of chassis,
    its ID registry is the default-constructed, empty `IDMap`: the constructor makes no
    registration pass, the lookup of any ID as a Rule, as a Device or as a Rail in `getIDMap()`
    fails with a NotFoundError naming that ID, and so no Rule of `rules` and no Device or Rail
    reachable from `chassis` is found under its ID. -/
theorem System_ctor_idMap_empty {Action : Type} (rules : List (Rule Action))
    (chassis : List (Chassis Action)) :
    (System.ctor rules chassis).getIDMap = IDMap.empty ∧
    (∀ id : String,
      IDMap.getRule (System.ctor rules chassis).getIDMap id =
        .error { id := id, kind := "rule" } ∧
      IDMap.getDevice (System.ctor rules chassis).getIDMap id =
        .error { id := id, kind := "device" } ∧
      IDMap.getRail (System.ctor rules chassis).getIDMap id =
        .error { id := id, kind := "rail" }) ∧
    (∀ rule ∈ rules,
      IDMap.getRule (System.ctor rules chassis).getIDMap rule.id ≠ .ok rule) ∧
    (∀ device ∈ reachableDevices chassis,
      IDMap.getDevice (System.ctor rules chassis).getIDMap device.getID ≠ .ok device) ∧
    (∀ rail ∈ reachableRails chassis,
      IDMap.getRail (System.ctor rules chassis).getIDMap rail.getID ≠ .ok rail) :=
  ⟨rfl, fun _ => ⟨rfl, rfl, rfl⟩,
   fun _ _ h => Except.noConfusion h,
   fun _ _ h => Except.noConfusion h,
   fun _ _ h => Except.noConfusion h⟩

/-- C12 (counterexample): a System is constructed from two rules that both have the ID
    `set_voltage_rule`; it holds both rules, and the ID is registered zero times in its
    registry. -/
theorem System_ctor_accepts_duplicate_rule_id :
    ((System.ctor
        [({ id := "set_voltage_rule", actions := [] } : Rule Unit),
         { id := "set_voltage_rule", actions := [] }] []).getRules.map (fun r => r.id) =
      ["set_voltage_rule", "set_voltage_rule"]) ∧
    IDMap.registrationCount
      (System.ctor
        [({ id := "set_voltage_rule", actions := [] } : Rule Unit),
         { id := "set_voltage_rule", actions := [] }] []).getIDMap "set_voltage_rule" = 0 :=
  ⟨rfl, rfl⟩

/-- C12 (amended): constructing a System from rules and chassis checks no ID and cannot fail,
    also when two objects carry the same ID: the System constructed holds the rules and the
    chassis exactly as given, and no ID is registered in its registry (so none is registered
    twice). -/
theorem System_ctor_makes_no_duplicate_check {Action : Type} (rules : List (Rule Action))
    (chassis : List (Chassis Action)) (id : String) :
    (∃ system : System Action, System.ctor rules chassis = system ∧
      system.getRules = rules ∧ system.getChassis = chassis) ∧
    IDMap.registrationCount (System.ctor rules chassis).getIDMap id = 0 :=
  ⟨⟨_, rfl, rfl, rfl⟩, rfl⟩

/-- C15: a System constructed from a vector of rules and a vector of chassis returns from
    `getRules()` exactly the given rules and from `getChassis()` exactly the given chassis:
    the same lists, hence the same length and the same element at every index. -/
theorem System_getRules_getChassis {Action : Type} (rules : List (Rule Action))
    (chassis : List (Chassis Action)) :
    (System.ctor rules chassis).getRules = rules ∧
    (System.ctor rules chassis).getChassis = chassis ∧
    (System.ctor rules chassis).getRules.length = rules.length ∧
    (System.ctor rules chassis).getChassis.length = chassis.length ∧
    (∀ i : Nat, (System.ctor rules chassis).getRules.get? i = rules.get? i) ∧
    (∀ i : Nat, (System.ctor rules chassis).getChassis.get? i = chassis.get? i) :=
  ⟨rfl, rfl, rfl, rfl, fun _ => rfl, fun _ => rfl⟩

/-! ## `parseInt8`: the type check -/

/-- C17: for every JSON element that is not an integer number (neither a signed nor an unsigned
    integer: a floating-point number, a string, a boolean, null, an array or an object),
    `parseInt8` fails with "Element is not an integer"; in particular it does not fail with
    the range error and returns no value. -/
theorem parseInt8_rejects_non_integer (element : Json)
    (hsigned : ∀ v, element ≠ .number_integer v)
    (hunsigned : ∀ v, element ≠ .number_unsigned v) :
    parseInt8 element = .error (.invalid_argument "Element is not an integer") ∧
    parseInt8 element ≠ .error (.invalid_argument "Element is not an 8-bit signed integer") ∧
    ∀ value, parseInt8 element ≠ .ok value := by
  have herr : parseInt8 element = .error (.invalid_argument "Element is not an integer") := by
    cases element with
    | number_integer v => exact absurd rfl (hsigned v)
    | number_unsigned v => exact absurd rfl (hunsigned v)
    | _ => rfl
  refine ⟨herr, ?_, ?_⟩
  · rw [herr]
    intro h
    have h2 := StdException.invalid_argument.inj (Except.error.inj h)
    exact absurd h2 (by decide)
  · intro value; rw [herr]; exact fun h => Except.noConfusion h

/-- Witness for C17: the floating-point numbers 5.0 and 1.5, a string, a boolean, null, an array
    and an object. -/
theorem parseInt8_rejects_non_integer_witness :
    parseInt8 (.number_float 5.0) = .error (.invalid_argument "Element is not an integer") ∧
    parseInt8 (.number_float 1.5) = .error (.invalid_argument "Element is not an integer") ∧
    parseInt8 (.string "5") = .error (.invalid_argument "Element is not an integer") ∧
    parseInt8 (.boolean true) = .error (.invalid_argument "Element is not an integer") ∧
    parseInt8 .null = .error (.invalid_argument "Element is not an integer") ∧
    parseInt8 (.array [.number_integer 5]) =
      .error (.invalid_argument "Element is not an integer") ∧
    parseInt8 (.object [("value", .number_integer 5)]) =
      .error (.invalid_argument "Element is not an integer") :=
  ⟨(parseInt8_rejects_non_integer (.number_float 5.0) (fun _ h => Json.noConfusion h)
      (fun _ h => Json.noConfusion h)).1,
   (parseInt8_rejects_non_integer (.number_float 1.5) (fun _ h => Json.noConfusion h)
      (fun _ h => Json.noConfusion h)).1,
   (parseInt8_rejects_non_integer (.string "5") (fun _ h => Json.noConfusion h)
      (fun _ h => Json.noConfusion h)).1,
   (parseInt8_rejects_non_integer (.boolean true) (fun _ h => Json.noConfusion h)
      (fun _ h => Json.noConfusion h)).1,
   (parseInt8_rejects_non_integer .null (fun _ h => Json.noConfusion h)
      (fun _ h => Json.noConfusion h)).1,
   (parseInt8_rejects_non_integer (.array [.number_integer 5]) (fun _ h => Json.noConfusion h)
      (fun _ h => Json.noConfusion h)).1,
   (parseInt8_rejects_non_integer (.object [("value", .number_integer 5)])
      (fun _ h => Json.noConfusion h) (fun _ h => Json.noConfusion h)).1⟩

end phosphor.power.regulators

/-! ## Sensor monitoring: isolation of rails and the environment of the actions -/

namespace phosphor.power.regulators

open phosphor.power

/-- A run of `action_utils::execute` that returns normally has run every action of the list. -/
theorem executedCount_of_ok {Action H : Type} (sem : ActionSemantics Action H)
    (actions : List Action) :
    ∀ (environment : ActionEnvironment Action) (hw : H)
      (r : ActionEnvironment Action × H),
      action_utils.execute sem actions environment hw = .ok r →
        action_utils.executedCount sem actions environment hw = actions.length := by
  induction actions with
  | nil => intro _ _ _ _; rfl
  | cons action rest ih =>
    intro environment hw r hrun
    unfold action_utils.execute at hrun
    unfold action_utils.executedCount
    cases hstep : sem.execute action environment hw with
    | error e => rw [hstep] at hrun; exact Except.noConfusion hrun
    | ok next =>
      obtain ⟨environment', hw'⟩ := next
      rw [hstep] at hrun
      simp only [List.length_cons, Nat.add_right_cancel_iff]
      exact ih environment' hw' r hrun

/-- When the actions fail, `execute` logs the exception chain and the line naming the rail, and
    returns normally with the hardware as the failed run left it. -/
theorem SensorMonitoring_execute_of_error {Action H : Type} (self : SensorMonitoring Action)
    (sem : ActionSemantics Action H) (system : System Action) (chassis : Chassis Action)
    (device : Device Action) (rail : Rail Action) (s : Services H) (e : StdException) (hw : H)
    (hrun : action_utils.execute sem self.actions
      (ActionEnvironment.ctor system.getIDMap device.getID) s.hardware = .error (e, hw)) :
    self.execute sem system chassis device rail s =
      .ok { journal := s.journal ++ exception_utils.getMessages e ++
              ["Unable to monitor sensors for rail " ++ rail.getID],
            hardware := hw } := by
  unfold SensorMonitoring.execute
  simp only [hrun]
  rfl

/-- When the actions succeed, `execute` logs nothing and returns normally with the hardware as
    the actions left it. -/
theorem SensorMonitoring_execute_of_ok {Action H : Type} (self : SensorMonitoring Action)
    (sem : ActionSemantics Action H) (system : System Action) (chassis : Chassis Action)
    (device : Device Action) (rail : Rail Action) (s : Services H)
    (environment : ActionEnvironment Action) (hw : H)
    (hrun : action_utils.execute sem self.actions
      (ActionEnvironment.ctor system.getIDMap device.getID) s.hardware =
        .ok (environment, hw)) :
    self.execute sem system chassis device rail s =
      .ok { journal := s.journal, hardware := hw } := by
  unfold SensorMonitoring.execute
  simp only [hrun]

/-- C13: rail monitoring isolation.  Let the monitoring actions of rail R2 fail with the
    exception `e` (leaving the hardware in state `hw2`) and the monitoring actions of rail R1
    succeed when run after that.  Running `execute` for R2 and then for R1: both calls return
    normally; the call for R2 adds to the journal the exception chain of `e` and the one line
    "Unable to monitor sensors for rail " followed by R2's ID; the call for R1 adds nothing to
    the journal and runs every one of R1's actions, leaving the hardware as they leave it. -/
theorem sensor_monitoring_isolation {Action H : Type} (sem : ActionSemantics Action H)
    (system : System Action) (monitoring1 monitoring2 : SensorMonitoring Action)
    (chassis1 chassis2 : Chassis Action) (device1 device2 : Device Action)
    (rail1 rail2 : Rail Action) (s : Services H) (e : StdException) (hw2 hw1 : H)
    (environment1 : ActionEnvironment Action)
    (hfail : action_utils.execute sem monitoring2.actions
      (ActionEnvironment.ctor system.getIDMap device2.getID) s.hardware = .error (e, hw2))
    (hok : action_utils.execute sem monitoring1.actions
      (ActionEnvironment.ctor system.getIDMap device1.getID) hw2 = .ok (environment1, hw1)) :
    ∃ s2 s3 : Services H,
      monitoring2.execute sem system chassis2 device2 rail2 s = .ok s2 ∧
      monitoring1.execute sem system chassis1 device1 rail1 s2 = .ok s3 ∧
      s2.journal = s.journal ++ exception_utils.getMessages e ++
        ["Unable to monitor sensors for rail " ++ rail2.getID] ∧
      s3.journal = s2.journal ∧
      s3.hardware = hw1 ∧
      action_utils.executedCount sem monitoring1.actions
        (ActionEnvironment.ctor system.getIDMap device1.getID) s2.hardware =
          monitoring1.actions.length := by
  refine ⟨_, _,
    SensorMonitoring_execute_of_error monitoring2 sem system chassis2 device2 rail2 s e hw2 hfail,
    SensorMonitoring_execute_of_ok monitoring1 sem system chassis1 device1 rail1 _
      environment1 hw1 hok,
    rfl, rfl, rfl, ?_⟩
  exact executedCount_of_ok sem monitoring1.actions _ _ _ hok

/-- Witness for C13: rail `vdd` has two actions that succeed, rail `vcs` an action that succeeds,
    one that fails and one more; `vcs` is monitored first. -/
theorem sensor_monitoring_isolation_witness :
    ∃ s2 s3 : Services Nat,
      SensorMonitoring.execute { actions := [true, false, true] } exampleSemantics
          (System.ctor [] []) { number := 1, devices := [] } { id := "vcs_reg", rails := [] }
          { id := "vcs", actions := [true, false, true] } { journal := [], hardware := 0 } =
        .ok s2 ∧
      SensorMonitoring.execute { actions := [true, true] } exampleSemantics
          (System.ctor [] []) { number := 1, devices := [] } { id := "vdd_reg", rails := [] }
          { id := "vdd", actions := [true, true] } s2 = .ok s3 ∧
      s2.journal = [] ++ exception_utils.getMessages
          (.exception "I2C read failed" ["PMBus error"]) ++
        ["Unable to monitor sensors for rail " ++
          Rail.getID ({ id := "vcs", actions := [true, false, true] } : Rail Bool)] ∧
      s3.journal = s2.journal ∧
      s3.hardware = 3 ∧
      action_utils.executedCount exampleSemantics [true, true]
        (ActionEnvironment.ctor (System.ctor [] []).getIDMap
          (Device.getID ({ id := "vdd_reg", rails := [] } : Device Bool))) s2.hardware = 2 :=
  sensor_monitoring_isolation exampleSemantics (System.ctor [] [])
    { actions := [true, true] } { actions := [true, false, true] }
    { number := 1, devices := [] } { number := 1, devices := [] }
    { id := "vdd_reg", rails := [] } { id := "vcs_reg", rails := [] }
    { id := "vdd", actions := [true, true] } { id := "vcs", actions := [true, false, true] }
    { journal := [], hardware := 0 } (.exception "I2C read failed" ["PMBus error"]) 1 3
    (ActionEnvironment.ctor (System.ctor [] []).getIDMap "vdd_reg") rfl rfl

end phosphor.power.regulators

namespace phosphor.power.regulators

open phosphor.power

/-- An observed run only adds to the list of recorded environments. -/
theorem recordedEnvironments_execute {Action H : Type} (sem : ActionSemantics Action H)
    (actions : List Action) :
    ∀ (environment : ActionEnvironment Action) (hw : H × List (ActionEnvironment Action)),
      ∃ later, recordedEnvironments
        (action_utils.execute sem.recording actions environment hw) = hw.2 ++ later := by
  induction actions with
  | nil => intro environment hw; exact ⟨[], by simp [action_utils.execute, recordedEnvironments]⟩
  | cons action rest ih =>
    intro environment hw
    unfold action_utils.execute
    cases hstep : sem.execute action environment hw.1 with
    | error r =>
      obtain ⟨e, h⟩ := r
      exact ⟨[environment], by simp [ActionSemantics.recording, hstep, recordedEnvironments]⟩
    | ok r =>
      obtain ⟨environment', h⟩ := r
      obtain ⟨later, hlater⟩ := ih environment' (h, hw.2 ++ [environment])
      refine ⟨environment :: later, ?_⟩
      simp only [ActionSemantics.recording, hstep]
      simp only [ActionSemantics.recording] at hlater
      rw [hlater]
      simp

/-- The first environment recorded by an observed run of a non-empty action list is the one the
    run was started with. -/
theorem recordedEnvironments_execute_cons {Action H : Type} (sem : ActionSemantics Action H)
    (action : Action) (rest : List Action) (environment : ActionEnvironment Action)
    (hw : H × List (ActionEnvironment Action)) :
    ∃ later, recordedEnvironments
      (action_utils.execute sem.recording (action :: rest) environment hw) =
        hw.2 ++ environment :: later := by
  unfold action_utils.execute
  cases hstep : sem.execute action environment hw.1 with
  | error r =>
    obtain ⟨e, h⟩ := r
    exact ⟨[], by simp [ActionSemantics.recording, hstep, recordedEnvironments]⟩
  | ok r =>
    obtain ⟨environment', h⟩ := r
    obtain ⟨later, hlater⟩ :=
      recordedEnvironments_execute sem rest environment' (h, hw.2 ++ [environment])
    refine ⟨later, ?_⟩
    simp only [ActionSemantics.recording, hstep]
    simp only [ActionSemantics.recording] at hlater
    rw [hlater]
    simp

/-- The method `execute` returns normally, with the hardware in the state in which the run of
    the actions ended. -/
theorem SensorMonitoring_execute_hardware {Action H : Type} (self : SensorMonitoring Action)
    (sem : ActionSemantics Action H) (system : System Action) (chassis : Chassis Action)
    (device : Device Action) (rail : Rail Action) (s : Services H) :
    ∃ s' : Services H, self.execute sem system chassis device rail s = .ok s' ∧
      s'.hardware =
        (match action_utils.execute sem self.actions
            (ActionEnvironment.ctor system.getIDMap device.getID) s.hardware with
         | .error (_, hw) => hw
         | .ok (_, hw) => hw) := by
  unfold SensorMonitoring.execute
  dsimp only
  split
  · next _ hw heq => exact ⟨_, rfl, by simp [heq]⟩
  · next e hw heq => exact ⟨_, rfl, by simp [heq, journal.logErr, exception_utils.log]⟩

/-- C14: for every call of `execute(system, chassis, device, rail)`, whatever the actions do,
    the first action is called with a newly constructed environment whose ID registry is
    `system.getIDMap()`, whose device ID is `device.getID()` and in which nothing has been
    computed (the later actions continue in that environment as the earlier ones leave it); and
    what the actions do to the hardware, the environments they are called with included, is the
    same for any other chassis argument, any other rail and any other journal left by earlier
    calls. -/
theorem SensorMonitoring_execute_environment {Action H : Type} (self : SensorMonitoring Action)
    (sem : ActionSemantics Action H) (system : System Action) (chassis : Chassis Action)
    (device : Device Action) (rail : Rail Action)
    (s : Services (H × List (ActionEnvironment Action))) :
    (∃ (s' : Services (H × List (ActionEnvironment Action)))
        (later : List (ActionEnvironment Action)),
      self.execute sem.recording system chassis device rail s = .ok s' ∧
      s'.hardware.2 = s.hardware.2 ++
        (if self.actions.isEmpty then []
         else { idMap := system.getIDMap, deviceID := device.getID, computed := [] } :: later)) ∧
    (∀ (chassis' : Chassis Action) (rail' : Rail Action) (journal' : List String),
      (self.execute sem.recording system chassis' device rail'
          { journal := journal', hardware := s.hardware }).map (fun r => r.hardware) =
        (self.execute sem.recording system chassis device rail s).map (fun r => r.hardware)) := by
  constructor
  · obtain ⟨s', hs', hhw⟩ :=
      SensorMonitoring_execute_hardware self sem.recording system chassis device rail s
    cases hactions : self.actions with
    | nil =>
      refine ⟨s', [], hs', ?_⟩
      rw [hhw, hactions]
      simp [action_utils.execute]
    | cons action rest =>
      obtain ⟨later, hlater⟩ := recordedEnvironments_execute_cons sem action rest
        (ActionEnvironment.ctor system.getIDMap device.getID) s.hardware
      refine ⟨s', later, hs', ?_⟩
      rw [hhw, hactions]
      simp only [List.isEmpty_cons, Bool.false_eq_true, if_false]
      show _ = s.hardware.2 ++ ActionEnvironment.ctor system.getIDMap device.getID :: later
      rw [← hlater]
      unfold recordedEnvironments
      cases action_utils.execute sem.recording (action :: rest)
          (ActionEnvironment.ctor system.getIDMap device.getID) s.hardware with
      | error r => rfl
      | ok r => rfl
  · intro chassis' rail' journal'
    obtain ⟨s1, hs1, hhw1⟩ :=
      SensorMonitoring_execute_hardware self sem.recording system chassis device rail s
    obtain ⟨s2, hs2, hhw2⟩ :=
      SensorMonitoring_execute_hardware self sem.recording system chassis' device rail'
        { journal := journal', hardware := s.hardware }
    rw [hs1, hs2]
    simp only [Except.map]
    rw [hhw1, hhw2]

end phosphor.power.regulators

/-! ## `logError`: what happens to the map passed by reference -/

namespace phosphor.power.sequencer

open phosphor.power

/-- The key order is asymmetric. -/
theorem keyLess_asymm : ∀ a b : List Char, keyLess a b = true → keyLess b a = false
  | [], [], h => by simp [keyLess] at h
  | [], _ :: _, _ => by simp [keyLess]
  | _ :: _, [], h => by simp [keyLess] at h
  | a :: as, b :: bs, h => by
    unfold keyLess at h ⊢
    by_cases hab : a.toNat < b.toNat
    · have hba : ¬ b.toNat < a.toNat := by omega
      simp [hba, hab]
    · by_cases hba : b.toNat < a.toNat
      · simp [hab, hba] at h
      · simp only [hab, hba, if_false] at h ⊢
        exact keyLess_asymm as bs h

/-- A key that no entry has is not found. -/
theorem find_eq_none_of_forall_ne (m : StdMap) (key : String)
    (hne : ∀ entry ∈ m, entry.1 ≠ key) : StdMap.find m key = none := by
  induction m with
  | nil => rfl
  | cons entry rest ih =>
    obtain ⟨k, v⟩ := entry
    have hk : k ≠ key := hne (k, v) (List.mem_cons_self _ _)
    simp only [StdMap.find, hk, if_false]
    exact ih (fun entry hmem => hne entry (List.mem_cons_of_mem _ hmem))

/-- In a well-formed map, a key smaller than the first key is not found. -/
theorem find_eq_none_of_keyLess (k v key : String) (rest : StdMap)
    (hwf : StdMap.WellFormed ((k, v) :: rest)) (hless : keyLess key.data k.data = true) :
    StdMap.find ((k, v) :: rest) key = none := by
  apply find_eq_none_of_forall_ne
  intro entry hmem heq
  rcases List.mem_cons.mp hmem with hhead | htail
  · subst hhead
    simp only at heq
    subst heq
    have := keyLess_asymm _ _ hless
    simp [hless] at this
  · have hlt : keyLess k.data entry.1.data = true :=
      (List.pairwise_cons.mp hwf).1 entry htail
    rw [heq] at hlt
    have := keyLess_asymm _ _ hless
    simp [hlt] at this

/-- Lookup after `emplace` in a well-formed map: the emplaced key maps to the value it already
    had, or to the new value when it had none; every other key is as before. -/
theorem find_emplace (m : StdMap) (key value key' : String) (hwf : StdMap.WellFormed m) :
    StdMap.find (StdMap.emplace m key value) key' =
      if key' = key then some ((StdMap.find m key).getD value) else StdMap.find m key' := by
  induction m with
  | nil =>
    by_cases h : key' = key
    · simp [StdMap.emplace, StdMap.find, h]
    · have h' : ¬ key = key' := fun e => h e.symm
      simp [StdMap.emplace, StdMap.find, h, h']
  | cons entry rest ih =>
    obtain ⟨k, v⟩ := entry
    have hwfrest : StdMap.WellFormed rest := (List.pairwise_cons.mp hwf).2
    unfold StdMap.emplace
    by_cases hk : k = key
    · subst hk
      by_cases h : key' = k
      · simp [StdMap.find, h]
      · simp [h]
    · simp only [hk, if_false]
      by_cases hless : keyLess key.data k.data = true
      · simp only [hless, if_true]
        have hnone := find_eq_none_of_keyLess k v key rest hwf hless
        by_cases h : key' = key
        · subst h
          simp only [StdMap.find] at hnone
          simp [StdMap.find, hnone]
        · have h' : ¬ key = key' := fun e => h e.symm
          simp only [h, if_false]
          rw [StdMap.find]
          simp [h']
      · simp only [hless]
        by_cases hk' : k = key'
        · subst hk'
          have h : ¬ k = key := hk
          simp [StdMap.find, h]
        · simp only [StdMap.find, hk', if_false, Bool.false_eq_true]
          rw [ih hwfrest]
          simp [hk]

/-- In a well-formed map that already has the key, `emplace` changes nothing. -/
theorem emplace_of_find_eq_some (m : StdMap) (key value old : String)
    (hwf : StdMap.WellFormed m) (hfind : StdMap.find m key = some old) :
    StdMap.emplace m key value = m := by
  induction m with
  | nil => simp [StdMap.find] at hfind
  | cons entry rest ih =>
    obtain ⟨k, v⟩ := entry
    unfold StdMap.emplace
    by_cases hk : k = key
    · simp [hk]
    · simp only [hk, if_false]
      by_cases hless : keyLess key.data k.data = true
      · have hnone := find_eq_none_of_keyLess k v key rest hwf hless
        rw [hnone] at hfind
        exact Option.noConfusion hfind
      · simp only [hless, Bool.false_eq_true, if_false]
        simp only [StdMap.find, hk, if_false] at hfind
        rw [ih (List.pairwise_cons.mp hwf).2 hfind]

/-- The map that `logError` leaves behind is the map it was given, either untouched or after
    the one `emplace` of `_PID`. -/
theorem logError_additionalData (bus : Bus) (pid : Int) (message : String) (data : StdMap)
    (w : World) (r : StdMap × World) (hr : logError bus pid message data w = .ok r) :
    r.1 = data ∨ r.1 = StdMap.emplace data "_PID" (std_to_string pid) := by
  unfold logError at hr
  split at hr
  · simp only [logError.handler, Except.ok.injEq] at hr
    exact Or.inl (by rw [← hr])
  · dsimp only at hr
    split at hr
    · simp only [logError.handler, Except.ok.injEq] at hr
      exact Or.inr (by rw [← hr])
    · split at hr
      · simp only [logError.handler, Except.ok.injEq] at hr
        exact Or.inr (by rw [← hr])
      · simp only [Except.ok.injEq] at hr
        exact Or.inr (by rw [← hr])

/-- C16: `logError` leaves every entry already present in `additionalData` unchanged and adds at
    most the one key `_PID`: the map it leaves is the given one or the given one after
    `emplace("_PID", ...)`, every key other than `_PID` maps as before, and every entry that was
    present is still there with its value.  When `additionalData` already has a `_PID` entry,
    the map is left as it was, and the record delivered carries the map with the caller's
    value. -/
theorem logError_frame (bus : Bus) (pid : Int) (message : String) (additionalData : StdMap)
    (w : World) (hwf : StdMap.WellFormed additionalData) :
    ∃ (data' : StdMap) (w' : World),
      logError bus pid message additionalData w = .ok (data', w') ∧
      (data' = additionalData ∨
        data' = StdMap.emplace additionalData "_PID" (std_to_string pid)) ∧
      (∀ key, key ≠ "_PID" → StdMap.find data' key = StdMap.find additionalData key) ∧
      (∀ key value, StdMap.find additionalData key = some value →
        StdMap.find data' key = some value) ∧
      (∀ callerValue, StdMap.find additionalData "_PID" = some callerValue →
        data' = additionalData ∧
        StdMap.find data' "_PID" = some callerValue ∧
        w'.records = w.records ++
          (if bus.delivers { message := message, level := Level.Critical,
                             additionalData := additionalData }
           then [{ message := message, level := Level.Critical,
                   additionalData := additionalData }]
           else [])) := by
  obtain ⟨r, hr, hrec⟩ := logError_records bus pid message additionalData w
  have hdata := logError_additionalData bus pid message additionalData w r hr
  have hother : ∀ key, key ≠ "_PID" → StdMap.find r.1 key = StdMap.find additionalData key := by
    intro key hkey
    rcases hdata with h | h
    · rw [h]
    · rw [h, find_emplace _ _ _ _ hwf]
      simp [hkey]
  have hkept : ∀ key value, StdMap.find additionalData key = some value →
      StdMap.find r.1 key = some value := by
    intro key value hfind
    rcases hdata with h | h
    · rw [h]; exact hfind
    · rw [h, find_emplace _ _ _ _ hwf]
      by_cases hkey : key = "_PID"
      · subst hkey
        simp [hfind]
      · simp [hkey, hfind]
  refine ⟨r.1, r.2, hr, hdata, hother, hkept, ?_⟩
  intro callerValue hcaller
  have hsame : StdMap.emplace additionalData "_PID" (std_to_string pid) = additionalData :=
    emplace_of_find_eq_some additionalData "_PID" _ callerValue hwf hcaller
  have hr1 : r.1 = additionalData := by
    rcases hdata with h | h
    · exact h
    · rw [h, hsame]
  refine ⟨hr1, ?_, ?_⟩
  · rw [hr1]; exact hcaller
  · rw [hrec, hsame]

/-- Witness for C16: a map that already has a `_PID` entry, set by the caller to 4321, while the
    process id is 1234: the map is left as it was and the record delivered carries 4321. -/
theorem logError_frame_witness :
    StdMap.WellFormed [("_PID", "4321")] ∧
    (∃ (data' : StdMap) (w' : World),
      logError workingBus 1234 "xyz.openbmc_project.Power.Error.Shutdown" [("_PID", "4321")]
          { journal := [], sent := [] } = .ok (data', w') ∧
      (data' = [("_PID", "4321")] ∨
        data' = StdMap.emplace [("_PID", "4321")] "_PID" (std_to_string 1234)) ∧
      (∀ key, key ≠ "_PID" → StdMap.find data' key = StdMap.find [("_PID", "4321")] key) ∧
      (∀ key value, StdMap.find [("_PID", "4321")] key = some value →
        StdMap.find data' key = some value) ∧
      (∀ callerValue, StdMap.find [("_PID", "4321")] "_PID" = some callerValue →
        data' = [("_PID", "4321")] ∧
        StdMap.find data' "_PID" = some callerValue ∧
        w'.records = World.records { journal := [], sent := [] } ++
          (if workingBus.delivers
                { message := "xyz.openbmc_project.Power.Error.Shutdown",
                  level := Level.Critical, additionalData := [("_PID", "4321")] }
           then [{ message := "xyz.openbmc_project.Power.Error.Shutdown",
                   level := Level.Critical, additionalData := [("_PID", "4321")] }]
           else []))) ∧
    logError workingBus 1234 "xyz.openbmc_project.Power.Error.Shutdown" [("_PID", "4321")]
        { journal := [], sent := [] } =
      .ok ([("_PID", "4321")],
           { journal := [],
             sent := [createCall { message := "xyz.openbmc_project.Power.Error.Shutdown",
                                   level := Level.Critical,
                                   additionalData := [("_PID", "4321")] }] }) :=
  ⟨List.pairwise_singleton _ _,
   logError_frame workingBus 1234 "xyz.openbmc_project.Power.Error.Shutdown"
     [("_PID", "4321")] { journal := [], sent := [] } (List.pairwise_singleton _ _),
   rfl⟩

end phosphor.power.sequencer
